import Mathlib

/-!
Verification of the path-resolution and logging-bootstrap core of the
RPA_WEB_SCRAPING repository (`config/log_config.py`), as a shallow
embedding in Lean 4.

Paths are modelled as POSIX path strings.  The pieces of the Python
standard library the module uses (`os.path.join`, `os.path.dirname`,
`os.path.basename`, `os.path.abspath` on `dir/..`) are embedded as pure
string functions that follow the CPython `posixpath` implementation on
the inputs the module feeds them (absolute, already-normalised base
directories supplied by the runtime environment).

The runtime environment that the module observes (`sys.frozen`,
`sys._MEIPASS`, `sys.executable`, `__file__`, the interpreter call
stack, the working directory, and whether the filesystem operations of
the file-sink setup succeed) is reified as an explicit `PyEnv` record,
so every function of the module becomes a pure function of a `PyEnv`
and, for the logging bootstrap, of an explicit `LoggingState`.
Console output and log records emitted during a call are returned as an
explicit list of `Effect`s; `print(...)` writes to standard output
(CPython default, no `file=` argument appears in the source).
-/

namespace LogConfig

/-! ## POSIX path-string primitives (model of the used parts of `os.path`) -/

/-- Destination stream of a raw console write. Python `print` without a
`file=` argument writes to `sys.stdout`. -/
inductive Channel where
  | stdout
  | stderr
deriving DecidableEq

/-- The path is absolute: it begins with a separator (`b.startswith(sep)`
in CPython `posixpath.join`). -/
def isAbsPath (p : String) : Bool :=
  decide (p.data.head? = some '/')

/-- `os.path.join a b` for POSIX paths (CPython `posixpath.join`):
if `b` is absolute it replaces `a`; otherwise it is appended, inserting
a separator unless `a` is empty or already ends with one. -/
def joinPath (a b : String) : String :=
  if isAbsPath b then b
  else if a.data = [] ∨ a.data.getLast? = some '/' then a ++ b
  else a ++ "/" ++ b

/-- `os.path.dirname p` (CPython `posixpath.dirname`): the prefix of `p`
up to the last separator, with trailing separators stripped unless the
prefix consists only of separators. -/
def dirnameStr (p : String) : String :=
  let head : List Char := (p.data.reverse.dropWhile (fun c => c ≠ '/')).reverse
  if head.any (fun c => c ≠ '/') then
    String.mk ((head.reverse.dropWhile (fun c => c = '/')).reverse)
  else
    String.mk head

/-- `os.path.basename p` (CPython `posixpath.basename`): everything after
the last separator. -/
def basenameStr (p : String) : String :=
  String.mk ((p.data.reverse.takeWhile (fun c => c ≠ '/')).reverse)

/-- Split a character list on a separator character, keeping empty
segments, as `str.split('/')` does. -/
def splitOnChar (sep : Char) : List Char → List (List Char)
  | [] => [[]]
  | c :: cs =>
    let r := splitOnChar sep cs
    if c = sep then [] :: r
    else
      match r with
      | [] => [[c]]
      | h :: t => (c :: h) :: t

/-- One step of `posixpath.normpath` component processing for an
absolute path: empty and `.` components vanish, `..` pops the previous
component (at the root it stays at the root). -/
def normStep (acc : List (List Char)) (c : List Char) : List (List Char) :=
  if c = [] ∨ c = ['.'] then acc
  else if c = ['.', '.'] then acc.dropLast
  else acc ++ [c]

/-- `posixpath.normpath` restricted to absolute inputs; the module only
applies it (through `os.path.abspath`) to `absdir/..`. -/
def normpathAbs (p : String) : String :=
  String.mk ('/' :: List.intercalate ['/'] ((splitOnChar '/' p.data).foldl normStep []))

/-- `os.path.abspath (os.path.join d "..")` for an absolute directory
`d`: ascend one level. -/
def parentDir (d : String) : String :=
  normpathAbs (joinPath d "..")

/-- Drop trailing path separators: `p` and `stripTrailingSep p` name the
same filesystem location when `p` is a directory path. -/
def stripTrailingSep (p : String) : String :=
  String.mk ((p.data.reverse.dropWhile (fun c => c = '/')).reverse)

/-- `p` lies under the directory `base`: it extends `base` verbatim. -/
def rootedUnder (base p : String) : Prop :=
  ∃ rest : String, p = base ++ rest

/-! ## Runtime environment observed by `config/log_config.py` -/

/-- The attributes of `sys` the module reads.  `frozen` is the truthiness
of `getattr(sys, 'frozen', False)` when the attribute exists (`none`
models the attribute being absent, in which case `getattr` yields
`False`); `meipass` is `sys._MEIPASS` when present (`hasattr`);
`executable` is `sys.executable`. -/
structure SysEnv where
  frozen : Option Bool
  meipass : Option String
  executable : String
deriving DecidableEq

/-- An exception raised by a filesystem operation during file-sink
setup: `OSError` (matched by the first `except` clause) or any other
exception (matched by the generic `except Exception`). -/
inductive PyError where
  | osError (msg : String)
  | genError (msg : String)
deriving DecidableEq

/-- The full runtime environment of one module load / `configurar_logging`
call.

* `moduleFile` — `__file__` of `config/log_config.py` when defined
  (absolute, as produced by `os.path.abspath`); `none` models the
  `NameError` fallback path (interactive / zipapp execution).
* `stack` — for each frame of the interpreter call stack, from the
  current frame outward, whether `'__file__'` occurs in its globals and
  its (absolute) value.
* `stackFallback` — what `inspect.getfile` on the fallback frame yields;
  `none` models that attempt raising (caught by `except Exception`).
* `cwd` — `os.path.abspath('.')`.
* `mkdirFails` / `openFails` — whether `os.makedirs` on the logs
  directory, respectively constructing the (rotating) file handler,
  raises, and with which exception. -/
structure PyEnv where
  sys : SysEnv
  moduleFile : Option String
  stack : List (Option String)
  stackFallback : Option String
  cwd : String
  mkdirFails : Option PyError
  openFails : Option PyError
deriving DecidableEq

/-- `IS_BUNDLED = getattr(sys, 'frozen', False) and hasattr(sys, '_MEIPASS')`
(line 24 of `config/log_config.py`). -/
def IS_BUNDLED (s : SysEnv) : Bool :=
  (s.frozen.getD false) && s.meipass.isSome

/-! ## Observable effects -/

/-- An observable effect emitted while the module runs: a raw console
write (`print`) on a given channel, or a log record routed through the
`logging` machinery (logger name, numeric level, message). -/
inductive Effect where
  | print (ch : Channel) (msg : String)
  | record (logger : String) (nivel : Nat) (msg : String)
deriving DecidableEq

/-! ## Read-base resolution (`_obtener_ruta_base_lectura`, lines 30-83) -/

/-- The stack walk of lines 51-63: starting from the current frame, step
outward while the frame has a predecessor and its globals lack
`'__file__'`; the loop therefore stops at the first frame carrying
`'__file__'`, or at the outermost frame.  The result is that frame's
`'__file__'` when it has one. -/
def findFrameFile : List (Option String) → Option String
  | [] => none
  | [f] => f
  | f :: rest =>
    match f with
    | some x => some x
    | none => findFrameFile rest

/-- The development-mode body of `_obtener_ruta_base_lectura`
(lines 40-76): the `try`/`except NameError`/`except Exception` chain
that leaves `ruta_base` assigned.  Returns the value of `ruta_base`
after the chain; `none` would mean the variable was never assigned,
which no branch actually produces (every path of the source assigns
it). -/
def lecturaDevCore (env : PyEnv) : Option String :=
  match env.moduleFile with
  | some file =>
    -- directorio_actual = dirname(abspath(__file__)); ruta_base = abspath(join(directorio_actual, '..'))
    some (parentDir (dirnameStr file))
  | none =>
    -- except NameError: walk the stack, else inspect.getfile fallback
    match findFrameFile env.stack with
    | some callerFile =>
      let d := dirnameStr callerFile
      if basenameStr d = "scripts" then some (parentDir d) else some d
    | none =>
      match env.stackFallback with
      | some callerFile =>
        let d := dirnameStr callerFile
        if basenameStr d = "scripts" then some (parentDir d) else some d
      | none =>
        -- except Exception: ruta_base = abspath('.'); the warning print
        -- on line 76 is commented out in the source, so nothing is emitted
        some env.cwd

/-- `_obtener_ruta_base_lectura` (lines 30-83), with the console output
it emits.  In bundled mode it returns `sys._MEIPASS` (guaranteed present
by `IS_BUNDLED`; `getD` supplies a dummy otherwise).  The final
`if ruta_base is None` guard of lines 79-81 is kept: it prints an ERROR
line and falls back to the working directory, but no branch of
`lecturaDevCore` yields `none`. -/
def obtener_ruta_base_lectura (env : PyEnv) : String × List Effect :=
  if IS_BUNDLED env.sys then
    (env.sys.meipass.getD "", [])
  else
    match lecturaDevCore env with
    | some r => (r, [])
    | none =>
      (env.cwd,
       [Effect.print Channel.stdout
         ("ERROR (log_config): Fallback final a CWD (" ++ env.cwd ++ ") como base de lectura.")])

/-- Module-level constant `RUTA_BASE_LECTURA` (line 100). -/
def RUTA_BASE_LECTURA (env : PyEnv) : String :=
  (obtener_ruta_base_lectura env).1

/-- `_obtener_ruta_base_escritura` (lines 85-97) and the module-level
constant `RUTA_BASE_ESCRITURA` (line 101): directory of the executable
when bundled, otherwise the same project root as the read base. -/
def RUTA_BASE_ESCRITURA (env : PyEnv) : String :=
  if IS_BUNDLED env.sys then dirnameStr env.sys.executable
  else RUTA_BASE_LECTURA env

/-! ## Public path builders (lines 107-143) -/

/-- `get_credentials_path` (lines 107-124): join `config/credenciales.json`
onto the write base when bundled, onto the read base in development. -/
def get_credentials_path (env : PyEnv) : String :=
  let base_para_credenciales :=
    if IS_BUNDLED env.sys then RUTA_BASE_ESCRITURA env else RUTA_BASE_LECTURA env
  joinPath (joinPath base_para_credenciales "config") "credenciales.json"

/-- `get_data_path` (lines 127-134):
`os.path.join(RUTA_BASE_ESCRITURA, 'data', relative_path_inside_data)`. -/
def get_data_path (env : PyEnv) (relative_path_inside_data : String := "") : String :=
  joinPath (joinPath (RUTA_BASE_ESCRITURA env) "data") relative_path_inside_data

/-- `get_logs_path` (lines 136-143):
`os.path.join(RUTA_BASE_ESCRITURA, 'logs', relative_path_inside_logs)`. -/
def get_logs_path (env : PyEnv) (relative_path_inside_logs : String := "") : String :=
  joinPath (joinPath (RUTA_BASE_ESCRITURA env) "logs") relative_path_inside_logs

/-! ## Logging state and handlers -/

/-- A sink attached to the root logger: the console `StreamHandler`
(to `sys.stdout`), the file handler (`RotatingFileHandler` when rotation
is on, `FileHandler` otherwise), or a handler that was already attached
before `configurar_logging` ran (identified only by a tag — its
concrete class is irrelevant to the module's behaviour). -/
inductive Sink where
  | console (nivel : Nat)
  | file (ruta : String) (nivel : Nat) (rotacion : Bool) (maxBytes : Nat) (respaldos : Nat)
  | preexisting (tag : Nat)
deriving DecidableEq

/-- A handler on the root logger together with the behaviour of its
`close()` method: `closeRaises` models `handler.close()` raising (stale
state), and `closeMsg` the text of that exception.  Handlers attached by
`configurar_logging` itself close normally.  The shared `Formatter`
(same format string on every attached handler) is not tracked per
handler. -/
structure Handler where
  sink : Sink
  closeRaises : Bool
  closeMsg : String
deriving DecidableEq

/-- The process-wide logging state: the two module globals
`_configuracion_realizada` (line 18) and `_ruta_archivo_log_actual`
(line 19), the root logger's own level, and the root logger's handler
list. -/
structure LoggingState where
  configuracion_realizada : Bool
  ruta_archivo_log_actual : Option String
  rootLevel : Nat
  handlers : List Handler
deriving DecidableEq

/-- State at interpreter start: both globals unset, root logger at its
`logging` default level WARNING (30) with no handlers. -/
def estadoInicial : LoggingState :=
  { configuracion_realizada := false
    ruta_archivo_log_actual := none
    rootLevel := 30
    handlers := [] }

/-- The keyword parameters of `configurar_logging` (lines 150-158) with
their source defaults.  Levels are the numeric `logging` levels
(DEBUG = 10, INFO = 20). -/
structure LogOptions where
  nombre_archivo_log : String := "app.log"
  nivel_archivo : Nat := 10
  nivel_consola : Nat := 20
  usar_rotacion : Bool := true
  max_bytes_rotacion : Nat := 10 * 1024 * 1024
  num_respaldos : Nat := 5
  log_a_consola : Bool := true
  log_a_archivo : Bool := true
deriving DecidableEq

/-- `logging.getLevelName` for the standard numeric levels. -/
def getLevelName (n : Nat) : String :=
  if n = 10 then "DEBUG"
  else if n = 20 then "INFO"
  else if n = 30 then "WARNING"
  else if n = 40 then "ERROR"
  else if n = 50 then "CRITICAL"
  else "Level " ++ toString n

/-- The shared log format string of line 185. -/
def FORMATO_LOG : String :=
  "%(asctime)s - %(name)s - %(levelname)s - [%(filename)s:%(lineno)d] - %(message)s"

/-- Fixed part of the warning printed when closing a stale handler
raises (line 196); the exception text is appended. -/
def mensajeCierre : String :=
  "ADVERTENCIA (log_config): Error cerrando handler de log existente: "

/-- The handler-cleanup loop of lines 190-196:
`for handler in logger_raiz.handlers[:]` iterates over a snapshot; for
each handler it tries `handler.close()` then
`logger_raiz.removeHandler(handler)`.  When `close()` raises, the
`except` clause prints a warning to standard output and the loop
continues — but `removeHandler` was never reached, so that handler stays
attached.  Returns the surviving handler list and the emitted output. -/
def limpiarHandlers : List Handler → List Handler × List Effect
  | [] => ([], [])
  | h :: hs =>
    let res := limpiarHandlers hs
    if h.closeRaises then
      (h :: res.1, Effect.print Channel.stdout (mensajeCierre ++ h.closeMsg) :: res.2)
    else
      res

/-- The console output and log record emitted by the two `except`
clauses of the file-sink `try` block (lines 237-249).  `OSError` prints
four lines (including the attempted directory and file) and logs a
CRITICAL record; any other exception prints one line and logs a
CRITICAL record.  All `print` calls write to standard output. -/
def erroresArchivo (rutaDir nombre : String) : PyError → List Effect
  | PyError.osError m =>
    [Effect.print Channel.stdout
       "ERROR CRÍTICO (log_config): No se pudo crear/escribir en el directorio/archivo de log.",
     Effect.print Channel.stdout ("   Directorio Intentado: " ++ rutaDir),
     Effect.print Channel.stdout ("   Archivo Intentado: " ++ nombre),
     Effect.print Channel.stdout ("   Error del Sistema Operativo: " ++ m),
     Effect.record "root" 50 ("Fallo CRÍTICO configurando log archivo: " ++ m)]
  | PyError.genError m =>
    [Effect.print Channel.stdout
       ("ERROR INESPERADO (log_config): Configurando log de archivo: " ++ m),
     Effect.record "root" 50 "Error inesperado configurando log archivo."]

/-- The four status records logged through `ConfigLog` at the end of
`configurar_logging` (lines 254-272).  The rotation annotation renders
the megabyte count with integer division where the source formats a
float (`:.1f`); the message text is otherwise as in the source. -/
def registrosEstado (env : PyEnv) (opts : LogOptions) (st : LoggingState) : List Effect :=
  let estadoConsola :=
    if opts.log_a_consola then "ON (Nivel >= " ++ getLevelName opts.nivel_consola ++ ")"
    else "OFF"
  let estadoArchivo :=
    match st.ruta_archivo_log_actual with
    | some ruta =>
      let base := "ON (Nivel >= " ++ getLevelName opts.nivel_archivo ++ ") en " ++ ruta
      if opts.usar_rotacion then
        base ++ " [Rot: " ++ toString (opts.max_bytes_rotacion / (1024 * 1024)) ++ "MB x"
          ++ toString opts.num_respaldos ++ "]"
      else base
    | none => "OFF (o error en setup)"
  [Effect.record "ConfigLog" 20
     ("Sistema Logging Configurado ("
       ++ (if IS_BUNDLED env.sys then "Empaquetado" else "Desarrollo") ++ ")."),
   Effect.record "ConfigLog" 20 ("  Ruta Base Lectura (Código): " ++ RUTA_BASE_LECTURA env),
   Effect.record "ConfigLog" 20
     ("  Ruta Base Escritura (Logs/Datos/ExtConf): " ++ RUTA_BASE_ESCRITURA env),
   Effect.record "ConfigLog" 20
     ("  Estado Salidas -> Consola: " ++ estadoConsola ++ " | Archivo: " ++ estadoArchivo)]

/-- `configurar_logging` (lines 150-272) as a state transformer: given
the runtime environment, the call's options and the current logging
state, return the new state and the effects emitted during the call.

Order of the source: reconfiguration guard (177-180); root level to
DEBUG (184); handler cleanup (190-196); console handler (200-204);
reset of `_ruta_archivo_log_actual` and the file-sink `try` block
(207-249); `_configuracion_realizada = True` (253) and the status
records (254-272). -/
def configurar_logging (env : PyEnv) (opts : LogOptions) (st : LoggingState) :
    LoggingState × List Effect :=
  if st.configuracion_realizada then
    (st, [Effect.record "ConfigLog" 30 "Intento de reconfigurar logging ya configurado."])
  else
    let st1 : LoggingState := { st with rootLevel := 10 }
    let limpio := limpiarHandlers st1.handlers
    let st2 : LoggingState := { st1 with handlers := limpio.1 }
    let st3 : LoggingState :=
      if opts.log_a_consola then
        { st2 with handlers := st2.handlers ++ [⟨Sink.console opts.nivel_consola, false, ""⟩] }
      else st2
    let st4 : LoggingState := { st3 with ruta_archivo_log_actual := none }
    let fase :=
      if opts.log_a_archivo then
        let rutaDir := get_logs_path env
        match env.mkdirFails with
        | some e => (st4, erroresArchivo rutaDir opts.nombre_archivo_log e)
        | none =>
          let rutaCompleta := joinPath rutaDir opts.nombre_archivo_log
          match env.openFails with
          | some e => (st4, erroresArchivo rutaDir opts.nombre_archivo_log e)
          | none =>
            ({ st4 with
                handlers := st4.handlers ++
                  [⟨Sink.file rutaCompleta opts.nivel_archivo opts.usar_rotacion
                      opts.max_bytes_rotacion opts.num_respaldos, false, ""⟩]
                ruta_archivo_log_actual := some rutaCompleta }, ([] : List Effect))
      else (st4, ([] : List Effect))
    let st5 : LoggingState := { fase.1 with configuracion_realizada := true }
    (st5, limpio.2 ++ fase.2 ++ registrosEstado env opts st5)

/-- `obtener_ruta_archivo_log` (lines 277-282): pure read of
`_ruta_archivo_log_actual`. -/
def obtener_ruta_archivo_log (st : LoggingState) : Option String :=
  st.ruta_archivo_log_actual

/-! ## Effect classifiers -/

/-- The effect is a raw write to standard error. -/
def esPrintStderr : Effect → Bool
  | Effect.print Channel.stderr _ => true
  | _ => false

/-- The effect is a raw write to standard output. -/
def esPrintStdout : Effect → Bool
  | Effect.print Channel.stdout _ => true
  | _ => false

/-- The effect is a log record at CRITICAL severity (50). -/
def esRegistroCritico : Effect → Bool
  | Effect.record _ 50 _ => true
  | _ => false

/-! ## Concrete environments and states used as witnesses -/

/-- `sys` of a plain development-mode interpreter: no `frozen`
attribute, no `_MEIPASS`. -/
def sysDev : SysEnv := ⟨none, none, "/usr/bin/python3"⟩

/-- Development run with the module at `/app/config/log_config.py`
(project root `/app`) and a healthy filesystem. -/
def envApp : PyEnv :=
  ⟨sysDev, some "/app/config/log_config.py", [], none, "/app", none, none⟩

/-- Development run with `__file__` undefined whose stack walk finds an
entry script inside a `scripts` folder. -/
def envStack : PyEnv :=
  ⟨sysDev, none, [none, some "/proj/scripts/main.py"], none, "/wk", none, none⟩

/-- Development run where `__file__` is undefined, no stack frame
carries one, and the last-resort introspection raises. -/
def envTodoFalla : PyEnv :=
  ⟨sysDev, none, [none, none], none, "/work", none, none⟩

/-- Development run at project root `/app` where `os.makedirs` on the
logs directory raises `OSError`. -/
def envMkdirFalla : PyEnv :=
  ⟨sysDev, some "/app/config/log_config.py", [], none, "/app",
   some (PyError.osError "Permission denied"), none⟩

/-- A pre-existing root-logger handler whose `close()` succeeds. -/
def handlerViejoOk : Handler := ⟨Sink.preexisting 0, false, ""⟩

/-- A pre-existing root-logger handler whose `close()` raises. -/
def handlerViejoFalla : Handler := ⟨Sink.preexisting 1, true, "Bad file descriptor"⟩

/-- An unconfigured state carrying two stale handlers, one of which
fails to close. -/
def estadoConHandlers : LoggingState := ⟨false, none, 30, [handlerViejoOk, handlerViejoFalla]⟩

/-- Options disabling both sinks. -/
def opcionesSinSalidas : LogOptions := { log_a_consola := false, log_a_archivo := false }

/-! ## Derived descriptions of the configure phases -/

/-- The handlers `configurar_logging` itself attaches, in attachment
order: the console handler when enabled, then the file handler when
enabled and both filesystem steps succeed. -/
def handlersNuevos (env : PyEnv) (opts : LogOptions) : List Handler :=
  (if opts.log_a_consola then [⟨Sink.console opts.nivel_consola, false, ""⟩] else []) ++
  (if opts.log_a_archivo ∧ env.mkdirFails = none ∧ env.openFails = none then
    [⟨Sink.file (joinPath (get_logs_path env) opts.nombre_archivo_log) opts.nivel_archivo
        opts.usar_rotacion opts.max_bytes_rotacion opts.num_respaldos, false, ""⟩]
   else [])

/-- The value `_ruta_archivo_log_actual` holds after the file-sink
phase: the full log-file path when the file sink is enabled and both
filesystem steps succeed, `none` otherwise. -/
def rutaResultante (env : PyEnv) (opts : LogOptions) : Option String :=
  if opts.log_a_archivo ∧ env.mkdirFails = none ∧ env.openFails = none then
    some (joinPath (get_logs_path env) opts.nombre_archivo_log)
  else none

/-- The effects the file-sink phase emits: the error report when a
filesystem step raises, nothing otherwise. -/
def efectosArchivo (env : PyEnv) (opts : LogOptions) : List Effect :=
  if opts.log_a_archivo then
    match env.mkdirFails with
    | some e => erroresArchivo (get_logs_path env) opts.nombre_archivo_log e
    | none =>
      match env.openFails with
      | some e => erroresArchivo (get_logs_path env) opts.nombre_archivo_log e
      | none => []
  else []

/-- The state `configurar_logging` produces from an unconfigured state. -/
def estadoFinal (env : PyEnv) (opts : LogOptions) (st : LoggingState) : LoggingState :=
  ⟨true, rutaResultante env opts, 10,
   st.handlers.filter (fun x => x.closeRaises) ++ handlersNuevos env opts⟩

/-! ## Helper lemmas about the cleanup loop and the file-sink phase -/

theorem limpiar_fst (hs : List Handler) :
    (limpiarHandlers hs).1 = hs.filter (fun x => x.closeRaises) := by
  induction hs with
  | nil => rfl
  | cons h t ih =>
    by_cases hc : h.closeRaises <;> simp [limpiarHandlers, hc, ih]

theorem limpiar_snd (hs : List Handler) :
    (limpiarHandlers hs).2 =
      (hs.filter (fun x => x.closeRaises)).map
        (fun x => Effect.print Channel.stdout (mensajeCierre ++ x.closeMsg)) := by
  induction hs with
  | nil => rfl
  | cons h t ih =>
    by_cases hc : h.closeRaises <;> simp [limpiarHandlers, hc, ih]

/-- Closed form of `configurar_logging` on an unconfigured state: the
final state forgets everything of the input state except the handlers
whose `close()` raised, and the emitted effects are the cleanup
warnings, then the file-sink error report (if any), then the four
status records. -/
theorem configurar_logging_eq (env : PyEnv) (opts : LogOptions) (st : LoggingState)
    (h : st.configuracion_realizada = false) :
    configurar_logging env opts st =
      (estadoFinal env opts st,
       (st.handlers.filter (fun x => x.closeRaises)).map
         (fun x => Effect.print Channel.stdout (mensajeCierre ++ x.closeMsg))
       ++ efectosArchivo env opts
       ++ registrosEstado env opts (estadoFinal env opts st)) := by
  by_cases hc : opts.log_a_consola <;> by_cases hf : opts.log_a_archivo <;>
    rcases hm : env.mkdirFails with _ | em <;> rcases ho : env.openFails with _ | eo <;>
      simp [configurar_logging, h, hc, hf, hm, ho, limpiar_fst, limpiar_snd,
        estadoFinal, rutaResultante, efectosArchivo, handlersNuevos, registrosEstado]

/-- Reconfiguration guard (lines 177-180): on a configured state the
call warns and returns, leaving the state untouched. -/
theorem configurar_logging_guard (env : PyEnv) (opts : LogOptions) (st : LoggingState)
    (h : st.configuracion_realizada = true) :
    configurar_logging env opts st =
      (st, [Effect.record "ConfigLog" 30 "Intento de reconfigurar logging ya configurado."]) := by
  simp [configurar_logging, h]

theorem configurar_sets_flag (env : PyEnv) (opts : LogOptions) (st : LoggingState)
    (h : st.configuracion_realizada = false) :
    ((configurar_logging env opts st).1).configuracion_realizada = true := by
  rw [configurar_logging_eq env opts st h]
  rfl

/-- Once configured, any sequence of further `configurar_logging` calls
leaves the state unchanged. -/
theorem configurar_noop_foldl (env : PyEnv) (st : LoggingState)
    (h : st.configuracion_realizada = true) :
    ∀ calls : List LogOptions,
      calls.foldl (fun s o => (configurar_logging env o s).1) st = st
  | [] => rfl
  | o :: rest => by
    have hstep : (configurar_logging env o st).1 = st := by
      rw [configurar_logging_guard env o st h]
    rw [List.foldl_cons, hstep]
    exact configurar_noop_foldl env st h rest

/-! ## Path lemmas -/

theorem rootedUnder_trans (a b c : String) (h1 : rootedUnder a b) (h2 : rootedUnder b c) :
    rootedUnder a c := by
  obtain ⟨t, ht⟩ := h1
  obtain ⟨s, hs⟩ := h2
  exact ⟨t ++ s, by rw [hs, ht, String.append_assoc]⟩

theorem joinPath_rootedUnder (a b : String) (h : isAbsPath b = false) :
    rootedUnder a (joinPath a b) := by
  unfold joinPath
  rw [h]
  simp only [Bool.false_eq_true, if_false]
  split
  · exact ⟨b, rfl⟩
  · exact ⟨"/" ++ b, String.append_assoc a "/" b⟩

/-! ## Effect-channel lemmas -/

theorem erroresArchivo_sin_stderr (d n : String) (e : PyError) :
    (erroresArchivo d n e).any esPrintStderr = false := by
  cases e <;> simp [erroresArchivo, esPrintStderr]

theorem erroresArchivo_con_stdout (d n : String) (e : PyError) :
    (erroresArchivo d n e).any esPrintStdout = true := by
  cases e <;> simp [erroresArchivo, esPrintStdout]

theorem erroresArchivo_con_critico (d n : String) (e : PyError) :
    (erroresArchivo d n e).any esRegistroCritico = true := by
  cases e <;> simp [erroresArchivo, esRegistroCritico]

theorem registros_sin_stderr (env : PyEnv) (opts : LogOptions) (st : LoggingState) :
    (registrosEstado env opts st).any esPrintStderr = false := by
  simp [registrosEstado, esPrintStderr]

theorem map_cleanup_sin_stderr (l : List Handler) :
    (l.map (fun x => Effect.print Channel.stdout (mensajeCierre ++ x.closeMsg))).any
      esPrintStderr = false := by
  induction l with
  | nil => rfl
  | cons a t ih => simp [esPrintStderr, ih]

theorem efectosArchivo_sin_stderr (env : PyEnv) (opts : LogOptions) :
    (efectosArchivo env opts).any esPrintStderr = false := by
  by_cases hf : opts.log_a_archivo <;>
    rcases hm : env.mkdirFails with _ | e1 <;> rcases ho : env.openFails with _ | e2 <;>
      simp [efectosArchivo, hf, hm, ho, erroresArchivo_sin_stderr]

theorem efectosArchivo_con_stdout (env : PyEnv) (opts : LogOptions)
    (hf : opts.log_a_archivo = true)
    (he : (env.mkdirFails.isSome || env.openFails.isSome) = true) :
    (efectosArchivo env opts).any esPrintStdout = true := by
  rcases hm : env.mkdirFails with _ | e1
  · rcases ho : env.openFails with _ | e2
    · rw [hm, ho] at he
      simp at he
    · simp [efectosArchivo, hf, hm, ho, erroresArchivo_con_stdout]
  · simp [efectosArchivo, hf, hm, erroresArchivo_con_stdout]

theorem efectosArchivo_con_critico (env : PyEnv) (opts : LogOptions)
    (hf : opts.log_a_archivo = true)
    (he : (env.mkdirFails.isSome || env.openFails.isSome) = true) :
    (efectosArchivo env opts).any esRegistroCritico = true := by
  rcases hm : env.mkdirFails with _ | e1
  · rcases ho : env.openFails with _ | e2
    · rw [hm, ho] at he
      simp at he
    · simp [efectosArchivo, hf, hm, ho, erroresArchivo_con_critico]
  · simp [efectosArchivo, hf, hm, erroresArchivo_con_critico]

/-! ## Claim theorems -/

/-- C7: the process is classified Packaged (`IS_BUNDLED`) iff the runtime
signals both a frozen/bundled artifact (`getattr(sys, 'frozen', False)`
truthy) and a bundle-extraction directory (`sys._MEIPASS` present); in
every other combination of the two signals it is FromSource.  In the
embedding the classification is a pure function of the `sys` snapshot
taken at module load, hence immutable afterwards. -/
theorem empaquetado_iff_frozen_y_meipass (s : SysEnv) :
    IS_BUNDLED s = true ↔ (s.frozen.getD false = true ∧ s.meipass.isSome = true) := by
  simp [IS_BUNDLED]

/-- C3: in FromSource (non-bundled) mode the read base and the write base
are equal, for every module location / working-directory environment. -/
theorem escritura_eq_lectura_en_desarrollo (env : PyEnv)
    (h : IS_BUNDLED env.sys = false) :
    RUTA_BASE_ESCRITURA env = RUTA_BASE_LECTURA env := by
  simp [RUTA_BASE_ESCRITURA, h]

/-- Witness for C3 at the concrete development environment `envApp`. -/
theorem escritura_eq_lectura_en_desarrollo_witness :
    IS_BUNDLED envApp.sys = false ∧ RUTA_BASE_ESCRITURA envApp = RUTA_BASE_LECTURA envApp :=
  ⟨by decide, escritura_eq_lectura_en_desarrollo envApp (by decide)⟩

/-- C4: for every caller-supplied relative suffix and every environment
(either mode), `get_data_path` and `get_logs_path` are the join of the
write base with the fixed subfolder name (`data` / `logs`) and the
suffix, hence rooted under `RUTA_BASE_ESCRITURA`; and in FromSource mode
with project root `/app` the default logs path resolves to `/app/logs`
(the raw returned string carries a trailing separator because the
default suffix is the empty string). -/
theorem rutas_datos_logs_bajo_escritura (env : PyEnv) (rel : String)
    (h : isAbsPath rel = false) :
    get_data_path env rel = joinPath (joinPath (RUTA_BASE_ESCRITURA env) "data") rel ∧
    get_logs_path env rel = joinPath (joinPath (RUTA_BASE_ESCRITURA env) "logs") rel ∧
    rootedUnder (RUTA_BASE_ESCRITURA env) (get_data_path env rel) ∧
    rootedUnder (RUTA_BASE_ESCRITURA env) (get_logs_path env rel) ∧
    stripTrailingSep (get_logs_path envApp) = "/app/logs" := by
  refine ⟨rfl, rfl, ?_, ?_, by decide⟩
  · exact rootedUnder_trans _ _ _
      (joinPath_rootedUnder _ "data" (by decide)) (joinPath_rootedUnder _ rel h)
  · exact rootedUnder_trans _ _ _
      (joinPath_rootedUnder _ "logs" (by decide)) (joinPath_rootedUnder _ rel h)

/-- Witness for C4 with the relative suffix `sub/reporte.csv` in the
`/app` development environment. -/
theorem rutas_datos_logs_bajo_escritura_witness :
    isAbsPath "sub/reporte.csv" = false ∧
    rootedUnder (RUTA_BASE_ESCRITURA envApp) (get_data_path envApp "sub/reporte.csv") ∧
    rootedUnder (RUTA_BASE_ESCRITURA envApp) (get_logs_path envApp "sub/reporte.csv") ∧
    stripTrailingSep (get_logs_path envApp) = "/app/logs" :=
  ⟨by decide,
   (rutas_datos_logs_bajo_escritura envApp "sub/reporte.csv" (by decide)).2.2.1,
   (rutas_datos_logs_bajo_escritura envApp "sub/reporte.csv" (by decide)).2.2.2.1,
   (rutas_datos_logs_bajo_escritura envApp "sub/reporte.csv" (by decide)).2.2.2.2⟩

/-- C6: `get_credentials_path` returns `base/config/credenciales.json`
where `base` is the write base when Packaged and the read base when
FromSource; it is a pure path join of the environment snapshot (no
filesystem access exists in the embedding), and in FromSource mode with
project root `/app` it returns `/app/config/credenciales.json`. -/
theorem ruta_credenciales_por_modo (env : PyEnv) :
    get_credentials_path env =
      joinPath (joinPath (if IS_BUNDLED env.sys then RUTA_BASE_ESCRITURA env
        else RUTA_BASE_LECTURA env) "config") "credenciales.json" ∧
    get_credentials_path envApp = "/app/config/credenciales.json" :=
  ⟨rfl, by decide⟩

/-- C9 (implicit): in BOTH execution modes `get_credentials_path` equals
the join of the write base with `config` and `credenciales.json`; the
Packaged/FromSource branch inside it is redundant, because in FromSource
mode the read base and the write base coincide. -/
theorem ruta_credenciales_siempre_escritura (env : PyEnv) :
    get_credentials_path env =
      joinPath (joinPath (RUTA_BASE_ESCRITURA env) "config") "credenciales.json" := by
  by_cases h : IS_BUNDLED env.sys <;>
    simp [get_credentials_path, RUTA_BASE_ESCRITURA, h]

/-- C8 counterexample: in the fully degraded environment `envTodoFalla`
(module location unavailable, no stack frame with a resolvable source
file, the last-resort introspection raising), `_obtener_ruta_base_lectura`
does return the current working directory — but it emits NO output
whatsoever, so no visible warning surfaces for this degraded outcome (the
warning print on line 76 of the source is commented out, and the guard of
lines 79-81 is unreachable). -/
theorem lectura_fallback_cwd_counterexample :
    envTodoFalla.cwd = "/work" ∧
    obtener_ruta_base_lectura envTodoFalla = ("/work", []) := by
  decide

/-- C8 (amended): in FromSource mode with the module location unavailable,
the fallback chain is as claimed — walk the stack to a frame with a
resolvable source file, ascend one level iff that file's directory is
literally named `scripts`, fall back to the last-resort introspection
with the same heuristic, and finally to the current working directory
without raising — except that the final fallback is SILENT: no warning is
emitted (the warning print is commented out in the source). -/
theorem lectura_cadena_fallback (env : PyEnv)
    (hb : IS_BUNDLED env.sys = false) (hm : env.moduleFile = none) :
    (∀ f, findFrameFile env.stack = some f →
      obtener_ruta_base_lectura env =
        ((if basenameStr (dirnameStr f) = "scripts" then parentDir (dirnameStr f)
          else dirnameStr f), [])) ∧
    (∀ f, findFrameFile env.stack = none → env.stackFallback = some f →
      obtener_ruta_base_lectura env =
        ((if basenameStr (dirnameStr f) = "scripts" then parentDir (dirnameStr f)
          else dirnameStr f), [])) ∧
    (findFrameFile env.stack = none → env.stackFallback = none →
      obtener_ruta_base_lectura env = (env.cwd, [])) := by
  refine ⟨?_, ?_, ?_⟩
  · intro f hf
    by_cases hs : basenameStr (dirnameStr f) = "scripts" <;>
      simp [obtener_ruta_base_lectura, lecturaDevCore, hb, hm, hf, hs]
  · intro f hf hsf
    by_cases hs : basenameStr (dirnameStr f) = "scripts" <;>
      simp [obtener_ruta_base_lectura, lecturaDevCore, hb, hm, hf, hsf, hs]
  · intro hf hsf
    simp [obtener_ruta_base_lectura, lecturaDevCore, hb, hm, hf, hsf]

/-- Witness for C8 at `envStack`: the stack walk skips a frameless entry,
finds `/proj/scripts/main.py`, and the `scripts` heuristic ascends to
`/proj`; no output is emitted. -/
theorem lectura_cadena_fallback_witness :
    (IS_BUNDLED envStack.sys = false ∧ envStack.moduleFile = none ∧
      findFrameFile envStack.stack = some "/proj/scripts/main.py") ∧
    obtener_ruta_base_lectura envStack = ("/proj", []) := by
  refine ⟨⟨by decide, by decide, by decide⟩, ?_⟩
  have h := (lectura_cadena_fallback envStack (by decide) (by decide)).1
    "/proj/scripts/main.py" (by decide)
  rw [h]
  decide

/-- C1: for every options value, a second `configurar_logging` call after
a first completed call is a no-op: it emits exactly the one
reconfiguration warning record and returns with the state — handler list
included — exactly as the first call left it, so
`obtener_ruta_archivo_log` is unchanged and zero additional sinks are
attached. -/
theorem segunda_configuracion_noop (env : PyEnv) (o1 o2 : LogOptions) (st : LoggingState)
    (h : st.configuracion_realizada = false) :
    configurar_logging env o2 (configurar_logging env o1 st).1 =
      ((configurar_logging env o1 st).1,
       [Effect.record "ConfigLog" 30 "Intento de reconfigurar logging ya configurado."]) ∧
    obtener_ruta_archivo_log ((configurar_logging env o2 (configurar_logging env o1 st).1).1) =
      obtener_ruta_archivo_log ((configurar_logging env o1 st).1) := by
  have hg := configurar_logging_guard env o2 (configurar_logging env o1 st).1
    (configurar_sets_flag env o1 st h)
  exact ⟨hg, by rw [hg]⟩

/-- Witness for C1: default options twice from the initial state in the
`/app` environment. -/
theorem segunda_configuracion_noop_witness :
    estadoInicial.configuracion_realizada = false ∧
    (configurar_logging envApp {} (configurar_logging envApp {} estadoInicial).1 =
      ((configurar_logging envApp {} estadoInicial).1,
       [Effect.record "ConfigLog" 30 "Intento de reconfigurar logging ya configurado."]) ∧
     obtener_ruta_archivo_log
         ((configurar_logging envApp {} (configurar_logging envApp {} estadoInicial).1).1) =
       obtener_ruta_archivo_log ((configurar_logging envApp {} estadoInicial).1)) :=
  ⟨rfl, segunda_configuracion_noop envApp {} {} estadoInicial rfl⟩

/-- C10 (implicit): the first `configurar_logging` call marks the state
Configured unconditionally — here with both sinks disabled, so zero sinks
were attached and `obtener_ruta_archivo_log` is `none` — and every
subsequent sequence of calls is a guarded no-op, so the process keeps no
`configurar_logging`-attached sink and a `none` active-log path for the
rest of its lifetime. -/
theorem configurado_sin_sinks_permanente (env : PyEnv) (opts : LogOptions) (st : LoggingState)
    (h : st.configuracion_realizada = false)
    (hc : opts.log_a_consola = false) (hf : opts.log_a_archivo = false) :
    ((configurar_logging env opts st).1).configuracion_realizada = true ∧
    ((configurar_logging env opts st).1).handlers =
      st.handlers.filter (fun x => x.closeRaises) ∧
    obtener_ruta_archivo_log ((configurar_logging env opts st).1) = none ∧
    (∀ calls : List LogOptions,
      calls.foldl (fun s o => (configurar_logging env o s).1)
          ((configurar_logging env opts st).1) =
        (configurar_logging env opts st).1) := by
  rw [configurar_logging_eq env opts st h]
  refine ⟨rfl, ?_, ?_, ?_⟩
  · simp [estadoFinal, handlersNuevos, hc, hf]
  · simp [obtener_ruta_archivo_log, estadoFinal, rutaResultante, hf]
  · intro calls
    exact configurar_noop_foldl env _ rfl calls

/-- Witness for C10: both sinks disabled, initial state, `/app`
environment. -/
theorem configurado_sin_sinks_permanente_witness :
    (estadoInicial.configuracion_realizada = false ∧
      opcionesSinSalidas.log_a_consola = false ∧ opcionesSinSalidas.log_a_archivo = false) ∧
    ((configurar_logging envApp opcionesSinSalidas estadoInicial).1).configuracion_realizada
        = true ∧
    ((configurar_logging envApp opcionesSinSalidas estadoInicial).1).handlers = [] ∧
    obtener_ruta_archivo_log ((configurar_logging envApp opcionesSinSalidas estadoInicial).1)
        = none := by
  have h := configurado_sin_sinks_permanente envApp opcionesSinSalidas estadoInicial rfl rfl rfl
  refine ⟨⟨rfl, rfl, rfl⟩, h.1, ?_, h.2.2.1⟩
  rw [h.2.1]
  rfl

/-- C2 counterexample: with `os.makedirs` on the logs directory raising
(`envMkdirFalla`), the default first call does degrade — the active log
path stays `none` — but every console write of the run goes to standard
OUTPUT and nothing at all is written to standard error, so the claim's
"reported to standard error" is false (the source reports with bare
`print(...)`). -/
theorem fallo_sink_archivo_counterexample :
    obtener_ruta_archivo_log ((configurar_logging envMkdirFalla {} estadoInicial).1) = none ∧
    ((configurar_logging envMkdirFalla {} estadoInicial).2).any esPrintStderr = false ∧
    ((configurar_logging envMkdirFalla {} estadoInicial).2).any esPrintStdout = true := by
  decide

/-- C2 (amended): if setting up the file sink fails at any step (the logs
directory cannot be created or the log file cannot be opened — `OSError`
or any other exception), `configurar_logging` completes normally (it is a
total function of the environment, nothing propagates to the caller),
`obtener_ruta_archivo_log` is left unset (`none`), the failure is
reported to standard OUTPUT (bare `print`; nothing is written to standard
error) and logged at CRITICAL severity, and the console sink, when
enabled, is attached and remains so. -/
theorem fallo_sink_archivo_degrada (env : PyEnv) (opts : LogOptions) (st : LoggingState)
    (h : st.configuracion_realizada = false) (hf : opts.log_a_archivo = true)
    (he : (env.mkdirFails.isSome || env.openFails.isSome) = true) :
    obtener_ruta_archivo_log ((configurar_logging env opts st).1) = none ∧
    ((configurar_logging env opts st).2).any esPrintStderr = false ∧
    ((configurar_logging env opts st).2).any esPrintStdout = true ∧
    ((configurar_logging env opts st).2).any esRegistroCritico = true ∧
    (opts.log_a_consola = true →
      (⟨Sink.console opts.nivel_consola, false, ""⟩ : Handler) ∈
        ((configurar_logging env opts st).1).handlers) := by
  have hnone : rutaResultante env opts = none := by
    rcases hm : env.mkdirFails with _ | e1
    · rcases ho : env.openFails with _ | e2
      · rw [hm, ho] at he
        simp at he
      · simp [rutaResultante, hm, ho]
    · simp [rutaResultante, hm]
  rw [configurar_logging_eq env opts st h]
  refine ⟨by simp [obtener_ruta_archivo_log, estadoFinal, hnone], ?_, ?_, ?_, ?_⟩
  · simp [List.any_append, map_cleanup_sin_stderr, efectosArchivo_sin_stderr,
      registros_sin_stderr]
  · simp [List.any_append, efectosArchivo_con_stdout env opts hf he]
  · simp [List.any_append, efectosArchivo_con_critico env opts hf he]
  · intro hcon
    simp [estadoFinal, handlersNuevos, hcon, List.mem_append]

/-- Witness for C2 at `envMkdirFalla` with default options. -/
theorem fallo_sink_archivo_degrada_witness :
    (estadoInicial.configuracion_realizada = false ∧
      ({} : LogOptions).log_a_archivo = true ∧
      (envMkdirFalla.mkdirFails.isSome || envMkdirFalla.openFails.isSome) = true) ∧
    obtener_ruta_archivo_log ((configurar_logging envMkdirFalla {} estadoInicial).1) = none ∧
    ((configurar_logging envMkdirFalla {} estadoInicial).2).any esPrintStdout = true := by
  have h := fallo_sink_archivo_degrada envMkdirFalla {} estadoInicial rfl rfl (by decide)
  exact ⟨⟨rfl, rfl, by decide⟩, h.1, h.2.2.1⟩

/-- C5 counterexample: starting from `estadoConHandlers` (two stale
handlers, one of which raises on `close()`), after the first configure
call the close-failing pre-existing handler is STILL attached to the
root logger, and the teardown-failure report went to standard output —
nothing was written to standard error.  Both the "no pre-existing
handler remains attached" part and the "reported to standard error" part
of the claim are false on this input. -/
theorem limpieza_counterexample :
    handlerViejoFalla ∈ ((configurar_logging envApp {} estadoConHandlers).1).handlers ∧
    ((configurar_logging envApp {} estadoConHandlers).2).any esPrintStderr = false ∧
    ((configurar_logging envApp {} estadoConHandlers).2).any esPrintStdout = true := by
  decide

/-- C5 (amended): during the first configure call every pre-existing sink
whose `close()` succeeds is closed and removed; a failure while closing
one sink is reported to standard OUTPUT (not standard error), does not
abort configuration (the call completes and marks the state configured),
and cleanup continues for the remaining sinks — but a sink whose
`close()` raised is NOT removed (`removeHandler` sits after `close()`
inside the `try`), so after cleanup exactly the close-failing
pre-existing handlers remain attached, followed by the newly attached
sinks. -/
theorem limpieza_conserva_handlers_fallidos (env : PyEnv) (opts : LogOptions)
    (st : LoggingState) (h : st.configuracion_realizada = false) :
    ((configurar_logging env opts st).1).handlers =
      st.handlers.filter (fun x => x.closeRaises) ++ handlersNuevos env opts ∧
    (∃ rest, (configurar_logging env opts st).2 =
      (st.handlers.filter (fun x => x.closeRaises)).map
        (fun x => Effect.print Channel.stdout (mensajeCierre ++ x.closeMsg)) ++ rest) ∧
    ((configurar_logging env opts st).1).configuracion_realizada = true := by
  rw [configurar_logging_eq env opts st h]
  exact ⟨rfl,
    ⟨efectosArchivo env opts ++ registrosEstado env opts (estadoFinal env opts st),
     by rw [List.append_assoc]⟩,
    rfl⟩

/-- Witness for C5 at `estadoConHandlers` in the `/app` environment. -/
theorem limpieza_conserva_handlers_fallidos_witness :
    estadoConHandlers.configuracion_realizada = false ∧
    ((configurar_logging envApp {} estadoConHandlers).1).handlers =
      estadoConHandlers.handlers.filter (fun x => x.closeRaises) ++ handlersNuevos envApp {} ∧
    ((configurar_logging envApp {} estadoConHandlers).1).configuracion_realizada = true := by
  have h := limpieza_conserva_handlers_fallidos envApp {} estadoConHandlers rfl
  exact ⟨rfl, h.1, h.2.2⟩

end LogConfig
